import Mathlib

/-!
Verification development for the symphony voice bot
(queue/volume managers, provider stream caches, error mapping,
format selection, playback advance), shallowly embedded from
`src/utils.py`, `src/sources/youtube.py`, `src/sources/soundcloud.py`
and `src/main.py`.

Machine floats (Python `time()`, volume floats) are modelled as exact
numbers (`Int`, `ℚ`): every claim below is about the min/max/compare
structure of the code, not about rounding.
-/

namespace Symphony

/-- `utils.TrackRequestItem` (dataclass, `src/utils.py` lines 22-30). -/
structure TrackRequestItem where
  id : String
  title : String
  url : String
  length : Int
  provider : String
  thumbnail : Option String := none
  stream_bitrate : Option Int := none
deriving DecidableEq, Repr

/-- `utils.StreamInfo` (dataclass, `src/utils.py` lines 33-36). -/
structure StreamInfo where
  stream_url : String
  bitrate : Option Int := none
deriving DecidableEq, Repr

/-- The `queueDict` field of `utils.TrackQueueManager`: a Python dict
from guild id to a deque of track requests, modelled as a partial map.
`none` means no entry for the guild exists in the dict; a deque is a
list with its head at the front. -/
def QDict : Type := String → Option (List TrackRequestItem)

/-- Point update of the queue dict (`d[g] = v` / `d.pop(g)`). -/
def qset (m : QDict) (g : String) (v : Option (List TrackRequestItem)) : QDict :=
  fun g' => if g' = g then v else m g'

namespace TrackQueueManager

/-- `TrackQueueManager.append` (`src/utils.py` lines 44-52): create the
guild's deque if absent, then append the track at the tail. -/
def append (m : QDict) (g : String) (t : TrackRequestItem) : QDict :=
  match m g with
  | none => qset m g (some [t])
  | some q => qset m g (some (q ++ [t]))

/-- `TrackQueueManager.get_next` (`src/utils.py` lines 54-64): returns
the popped head (if any) together with the dict after the call.  If no
queue exists, return `none` unchanged; if the queue exists but is
empty, delete the entry and return `none`; otherwise `popleft`. -/
def get_next (m : QDict) (g : String) : Option TrackRequestItem × QDict :=
  match m g with
  | none => (none, m)
  | some [] => (none, qset m g none)
  | some (t :: ts) => (some t, qset m g (some ts))

/-- `TrackQueueManager.drop_queue` (`src/utils.py` lines 66-72):
returns whether an entry existed, and removes it. -/
def drop_queue (m : QDict) (g : String) : Bool × QDict :=
  match m g with
  | none => (false, m)
  | some _ => (true, qset m g none)

/-- `TrackQueueManager.is_empty` (`src/utils.py` lines 74-76):
`not guild_queue` is true for an absent entry and for an empty deque. -/
def is_empty (m : QDict) (g : String) : Bool :=
  match m g with
  | none => true
  | some q => q.isEmpty

/-- `TrackQueueManager.get_queue_length` (`src/utils.py` lines 78-80). -/
def get_queue_length (m : QDict) (g : String) : Nat :=
  match m g with
  | none => 0
  | some q => q.length

end TrackQueueManager

/-- The `volumeDict` field of `utils.VolumeManager`: guild id to float
volume (floats modelled as `ℚ`). -/
def VDict : Type := String → Option ℚ

namespace VolumeManager

/-- `VolumeManager.get_volume` (`src/utils.py` lines 88-91): default 1.0. -/
def get_volume (m : VDict) (g : Option String) : ℚ :=
  match g with
  | none => 1
  | some g => (m g).getD 1

/-- `VolumeManager.set_volume` (`src/utils.py` lines 93-94). -/
def set_volume (m : VDict) (g : String) (v : ℚ) : VDict :=
  fun g' => if g' = g then some v else m g'

end VolumeManager

/-- A voice-channel member as `utils.is_vc_empty` observes it: only the
`bot` flag is read. -/
structure Member where
  bot : Bool
deriving DecidableEq, Repr

/-- The slice of a `discord.VoiceClient` that `main.play_next` and
`utils.is_vc_empty` read: the transport's playing/paused report and the
channel's member list (`none` models a falsy/absent channel). -/
structure VoiceClient where
  is_playing : Bool
  is_paused : Bool
  channel : Option (List Member)
deriving DecidableEq, Repr

/-- `utils.is_vc_empty` (`src/utils.py` lines 97-104): a falsy client or
channel yields `false`; otherwise true iff the channel has no non-bot
member. -/
def is_vc_empty (voice_client : Option VoiceClient) : Bool :=
  match voice_client with
  | none => false
  | some vc =>
    match vc.channel with
    | none => false
    | some members => (members.filter (fun m => !m.bot)).length == 0

/-- `sub.data` starts the char list. -/
def charsStartWith : List Char → List Char → Bool
  | _, [] => true
  | [], _ :: _ => false
  | c :: cs, d :: ds => c == d && charsStartWith cs ds

/-- `sub` occurs contiguously inside `s`. -/
def charsContain : List Char → List Char → Bool
  | [], sub => charsStartWith [] sub
  | c :: cs, sub => charsStartWith (c :: cs) sub || charsContain cs sub

/-- Python's substring test `sub in s`. -/
def strContains (s sub : String) : Bool :=
  charsContain s.data sub.data

/-- Python's `str.lower()` (ASCII range, which is all the comparisons
in the source use). -/
def strLower (s : String) : String :=
  String.mk (s.data.map Char.toLower)

/-- Python's `str.endswith(suffix)`. -/
def strEndsWith (s suffix : String) : Bool :=
  charsStartWith s.data.reverse suffix.data.reverse

/-- Python's `str.startswith(prefix)`. -/
def strStartsWith (s p : String) : Bool :=
  charsStartWith s.data p.data

/-- Split a char list at every occurrence of `sep` (Python
`str.split(sep)` semantics: `"" ↦ [""]`, trailing separator yields a
trailing empty piece). -/
def splitOnChar (sep : Char) : List Char → List (List Char)
  | [] => [[]]
  | c :: cs =>
    let r := splitOnChar sep cs
    if c == sep then [] :: r
    else (c :: r.headD []) :: r.tail

/-- Digit-run accumulator for `strToInt?`. -/
def digitsValAux : List Char → Nat → Option Nat
  | [], acc => some acc
  | c :: cs, acc =>
    if c.isDigit then digitsValAux cs (acc * 10 + (c.toNat - '0'.toNat)) else none

/-- Value of a non-empty digit run. -/
def digitsVal? : List Char → Option Nat
  | [] => none
  | cs => digitsValAux cs 0

/-- Python's `int(s)` on the strings at hand: optional sign followed by
digits (surrounding whitespace and underscore separators are not
modelled; the signed-URL `expire` values are plain digit runs). -/
def strToInt? (s : String) : Option Int :=
  match s.data with
  | '-' :: cs => (digitsVal? cs).map fun n => -(n : Int)
  | '+' :: cs => (digitsVal? cs).map fun n => (n : Int)
  | cs => (digitsVal? cs).map fun n => (n : Int)

/-- A provider's `_stream_cache` field: a Python `OrderedDict` from
cache key (track URL) to `(StreamInfo, expires_at)`, modelled as a list
of entries in recency order — front = first inserted / least recently
written, back = most recently written.  `expires_at` (a Python `time()`
float) is modelled as `Int`. -/
abbrev StreamCache : Type := List (String × StreamInfo × Int)

/-- Dict lookup `cache.get(key)`: the (unique) entry for `k`, if any. -/
def cacheFind? (c : StreamCache) (k : String) : Option (StreamInfo × Int) :=
  (List.find? (fun e => e.1 == k) c).map (·.2)

/-- Dict removal `cache.pop(key, None)`. -/
def cacheErase (c : StreamCache) (k : String) : StreamCache :=
  List.filter (fun e => e.1 != k) c

/-- `_get_cached_stream` — the bodies in `src/sources/youtube.py` lines
238-247 and `src/sources/soundcloud.py` lines 178-187 are identical, so
it is defined once.  Returns the hit (if any) and the cache after the
call: a miss leaves the cache as is, an expired entry is popped and
reported as a miss, a fresh hit is returned **without reordering the
entry** (`OrderedDict.get` does not touch recency). -/
def get_cached_stream (now : Int) (c : StreamCache) (cache_key : String) :
    Option StreamInfo × StreamCache :=
  match cacheFind? c cache_key with
  | none => (none, c)
  | some (stream, expires_at) =>
    if expires_at < now then (none, cacheErase c cache_key)
    else (some stream, c)

/-- The write path shared by both providers' `_remember_stream`:
`self._stream_cache[key] = value` followed by `move_to_end(key)` nets
out to erase-then-append-at-back; then `popitem(last=False)` drops the
front entry when the bound is exceeded. -/
def cacheInsert (max_entries : Nat) (c : StreamCache) (k : String)
    (v : StreamInfo × Int) : StreamCache :=
  let c' := cacheErase c k ++ [(k, v.1, v.2)]
  if max_entries < c'.length then c'.tail else c'

/-- The query string of a URL, as `urlparse(url).query`: the fragment
(first `#` onward) is split off first, then everything after the first
`?` of the remainder is the query. -/
def urlQuery (url : String) : String :=
  let noFrag := (splitOnChar '#' url.data).headD []
  match splitOnChar '?' noFrag with
  | _ :: rest@(_ :: _) => String.mk (List.intercalate ['?'] rest)
  | _ => ""

/-- `parse_qs(query).get(key)` followed by taking the first value:
fields split on `&`, each split at its first `=`; fields with no `=` or
a blank value are dropped (`parse_qs` default).  Percent-decoding is
not modelled (the `expire` values of interest are plain digit runs). -/
def parse_qs_first (query key : String) : Option String :=
  (splitOnChar '&' query.data).findSome? fun field =>
    match splitOnChar '=' field with
    | k :: v :: vs =>
      let value := List.intercalate ['='] (v :: vs)
      if k == key.data && value != [] then some (String.mk value) else none
    | _ => none

namespace YouTubeSource

/-- Default of `self._cache_ttl` (`src/sources/youtube.py` line 84). -/
def cache_ttl : Int := 900

/-- `self._cache_max_entries` (`src/sources/youtube.py` line 85). -/
def cache_max_entries : Nat := 128

/-- `YouTubeSource._extract_url_expiry` (`src/sources/youtube.py` lines
249-258): the first `expire` query parameter of the stream URL, parsed
as an integer; any parse failure yields `none`. -/
def extract_url_expiry (stream_url : String) : Option Int :=
  match parse_qs_first (urlQuery stream_url) "expire" with
  | none => none
  | some v => strToInt? v

/-- `YouTubeSource._remember_stream` (`src/sources/youtube.py` lines
260-276).  `now` is `time()`; `ttl` is the instance's `_cache_ttl`.
Note `if url_expires_at:` treats the float `0.0` as falsy, hence the
`e == 0` case. -/
def remember_stream (ttl now : Int) (c : StreamCache) (cache_key : String)
    (stream : StreamInfo) : StreamCache :=
  let ttl_expires_at := now + ttl
  let expires_at :=
    match extract_url_expiry stream.stream_url with
    | some e => if e == 0 then ttl_expires_at else min ttl_expires_at (max now (e - 60))
    | none => ttl_expires_at
  cacheInsert cache_max_entries c cache_key (stream, expires_at)

end YouTubeSource

namespace SoundCloudSource

/-- `self._cache_ttl` (`src/sources/soundcloud.py` line 39). -/
def cache_ttl : Int := 900

/-- `self._cache_max_entries` (`src/sources/soundcloud.py` line 40). -/
def cache_max_entries : Nat := 128

/-- `SoundCloudSource._remember_stream` (`src/sources/soundcloud.py`
lines 189-193): the expiry is always `time() + self._cache_ttl`; no
expiry is extracted from the stream URL. -/
def remember_stream (now : Int) (c : StreamCache) (cache_key : String)
    (stream : StreamInfo) : StreamCache :=
  cacheInsert cache_max_entries c cache_key (stream, now + cache_ttl)

end SoundCloudSource

/-- The spec's provider error taxonomy, carrying the user-facing
message of the `ValueError` the code raises. -/
inductive ProviderFailure where
  | notFound (msg : String)
  | accessDenied (msg : String)
  | providerError (msg : String)
deriving DecidableEq, Repr

def ProviderFailure.isNotFound : ProviderFailure → Bool
  | .notFound _ => true
  | _ => false

def ProviderFailure.isAccessDenied : ProviderFailure → Bool
  | .accessDenied _ => true
  | _ => false

def ProviderFailure.message : ProviderFailure → String
  | .notFound m => m
  | .accessDenied m => m
  | .providerError m => m

namespace YouTubeSource

/-- The 403 message raised by `YouTubeSource.search`
(`src/sources/youtube.py` lines 123-126; Python's adjacent string
literals concatenate). -/
def access_denied_message : String :=
  "❌ YouTube rejected the request (403 Forbidden). This is usually bot/consent enforcement rather than an IP ban. Try updating yt-dlp and/or providing cookies (see README troubleshooting)."

/-- The not-found message raised by `YouTubeSource.search`
(`src/sources/youtube.py` lines 132-134). -/
def not_found_message : String :=
  "❌ YouTube video not found. The link may be invalid or the video may have been removed."

/-- How `YouTubeSource.search` (`src/sources/youtube.py` lines 116-138)
maps the text of a backend `DownloadError` to the raised failure:
403/forbidden is checked first, then 404 / "not found" / "unavailable"
(all three against the lowercased text), else the generic error
carrying the backend message. -/
def search_download_error (error_text : String) : ProviderFailure :=
  if strContains error_text "403" || strContains (strLower error_text) "forbidden" then
    .accessDenied access_denied_message
  else if strContains (strLower error_text) "404" || strContains (strLower error_text) "not found"
      || strContains (strLower error_text) "unavailable" then
    .notFound not_found_message
  else
    .providerError ("❌ Error accessing YouTube: " ++ error_text)

end YouTubeSource

namespace SoundCloudSource

/-- The not-found message raised by `SoundCloudSource.search`
(`src/sources/soundcloud.py` lines 75-77). -/
def not_found_message : String :=
  "❌ SoundCloud track not found. The link may be invalid or the track may have been removed."

/-- How `SoundCloudSource.search` (`src/sources/soundcloud.py` lines
70-83) maps the text of a backend `DownloadError`: only "404" (raw) or
"not found" (lowercased) yield the not-found failure; everything else —
including 403/forbidden and "unavailable" — falls to the generic error
carrying the backend message. -/
def search_download_error (error_text : String) : ProviderFailure :=
  if strContains error_text "404" || strContains (strLower error_text) "not found" then
    .notFound not_found_message
  else
    .providerError ("❌ Error accessing SoundCloud: " ++ error_text)

end SoundCloudSource

/-- A backend format descriptor as the extraction code reads it: the
`url`, `acodec` and `abr` entries of the dict (`none` models an absent
key). -/
structure MediaFormat where
  url : Option String := none
  acodec : Option String := none
  abr : Option Int := none
deriving DecidableEq, Repr, Inhabited

/-- Python truthiness of `d.get(key)` for a string entry: present and
non-empty. -/
def optTruthy : Option String → Bool
  | none => false
  | some s => s != ""

/-- The sort key `fmt.get("abr", 0)`. -/
def abrKey (fmt : MediaFormat) : Int := fmt.abr.getD 0

/-- The slice of the yt-dlp `extract_info` result the extraction code
reads: `requested_formats` (when it is a list), `formats`, and the
top-level `url`. -/
structure ExtractData where
  requested_formats : Option (List MediaFormat) := none
  formats : Option (List MediaFormat) := none
  url : Option String := none
deriving DecidableEq, Repr

/-- One step of stable descending insertion by `key`: `x` (originally
earlier) goes before every element of equal key. -/
def insertDescBy {α : Type} (key : α → Int) (x : α) : List α → List α
  | [] => [x]
  | y :: ys => if key y ≤ key x then x :: y :: ys else y :: insertDescBy key x ys

/-- Python's stable `list.sort(key=..., reverse=True)`: descending by
`key`, elements of equal key keep their original relative order. -/
def sortDescBy {α : Type} (key : α → Int) : List α → List α
  | [] => []
  | x :: xs => insertDescBy key x (sortDescBy key xs)

namespace YouTubeSource

/-- Formats considered by `YouTubeSource._extract_stream_url`:
`requested_formats` (when a list) followed by `formats`. -/
def candidate_formats (data : ExtractData) : List MediaFormat :=
  data.requested_formats.getD [] ++ data.formats.getD []

/-- The `audio_formats` filter of `YouTubeSource._extract_stream_url`
(`src/sources/youtube.py` lines 217-221): truthy `acodec` not equal to
"none", and truthy `url`.  No streaming-playlist (HLS) exclusion. -/
def audio_formats (data : ExtractData) : List MediaFormat :=
  (candidate_formats data).filter fun fmt =>
    optTruthy fmt.acodec && fmt.acodec != some "none" && optTruthy fmt.url

/-- `YouTubeSource._extract_stream_url` (`src/sources/youtube.py` lines
209-229): sort the audio formats by descending `abr` and take the
first's url; if none, fall back to the top-level `url` when truthy,
else fail. -/
def extract_stream_url (data : ExtractData) : Except String String :=
  if (audio_formats data).isEmpty then
    if optTruthy data.url then .ok (data.url.getD "")
    else .error "No valid audio stream found for YouTube track"
  else
    .ok (((sortDescBy abrKey (audio_formats data)).headD default).url.getD "")

end YouTubeSource

namespace SoundCloudSource

/-- The `preferred_formats` filter of
`SoundCloudSource._extract_stream_url` (`src/sources/soundcloud.py`
lines 144-151): truthy url not ending in ".m3u8", truthy `acodec` not
equal to "none". -/
def preferred_formats (data : ExtractData) : List MediaFormat :=
  (data.formats.getD []).filter fun fmt =>
    optTruthy fmt.url && !(strEndsWith (fmt.url.getD "") ".m3u8") &&
      optTruthy fmt.acodec && fmt.acodec != some "none"

/-- The `fallback_formats` filter (`src/sources/soundcloud.py` lines
157-161): any audio-capable format with a truthy url (HLS included). -/
def fallback_formats (data : ExtractData) : List MediaFormat :=
  (data.formats.getD []).filter fun fmt =>
    optTruthy fmt.url && optTruthy fmt.acodec && fmt.acodec != some "none"

/-- `SoundCloudSource._extract_stream_url` (`src/sources/soundcloud.py`
lines 142-169): best (stable-sorted by descending `abr`) non-HLS audio
format; else the *first* fallback format in list order (unsorted); else
the top-level `url` when it starts with "http"; else fail. -/
def extract_stream_url (data : ExtractData) : Except String String :=
  if !(preferred_formats data).isEmpty then
    .ok (((sortDescBy abrKey (preferred_formats data)).headD default).url.getD "")
  else if !(fallback_formats data).isEmpty then
    .ok (((fallback_formats data).headD default).url.getD "")
  else if optTruthy data.url && strStartsWith (data.url.getD "") "http" then
    .ok (data.url.getD "")
  else
    .error "No valid audio stream found"

end SoundCloudSource

/-- What `main.play_next` (`src/main.py` lines 223-236) does before any
playback is started, as an action on the queue dict.  `teardown` means
the guild's queue was dropped and `disconnect(force=False)` was called;
`idleWait` means the function returned staying connected; `play t`
means it proceeds to resolve and play `t`. -/
inductive PlayNextOutcome where
  | noop
  | teardown
  | idleWait
  | play (t : TrackRequestItem)
deriving DecidableEq, Repr

/-- The advance decision of `main.play_next` (`src/main.py` lines
223-236): no-op while the transport reports playing or paused;
otherwise pop from the queue manager; with no next track, tear down
when the voice channel has zero non-bot occupants, else stay put. -/
def play_next_step (vc : VoiceClient) (m : QDict) (g : String) :
    PlayNextOutcome × QDict :=
  if vc.is_playing || vc.is_paused then (.noop, m)
  else
    let res := TrackQueueManager.get_next m g
    match res.1 with
    | none =>
      if is_vc_empty (some vc) then
        (.teardown, (TrackQueueManager.drop_queue res.2 g).2)
      else
        (.idleWait, res.2)
    | some t => (.play t, res.2)

/-- `append(g, t1), …, append(g, tn)` as one fold. -/
def appendAll (m : QDict) (g : String) (ts : List TrackRequestItem) : QDict :=
  ts.foldl (fun m t => TrackQueueManager.append m g t) m

/-- `n` successive `get_next(g)` calls, collecting the results in
order. -/
def getNextN (m : QDict) (g : String) : Nat → List (Option TrackRequestItem) × QDict
  | 0 => ([], m)
  | n + 1 =>
    let r := TrackQueueManager.get_next m g
    let rs := getNextN r.2 g n
    (r.1 :: rs.1, rs.2)

/-- Keys of a stream cache in recency order. -/
def cacheKeys (c : StreamCache) : List String := c.map (·.1)

/-- The empty queue dict (fresh `TrackQueueManager`). -/
def emptyQDict : QDict := fun _ => none

/-- The empty volume dict (fresh `VolumeManager`). -/
def emptyVDict : VDict := fun _ => none

/-- A concrete track request for witnesses. -/
def mkTrack (i : String) : TrackRequestItem :=
  { id := i, title := i, url := i, length := 0, provider := "YouTube" }

/-- A provider stream cache filled to its 128-entry capacity with
distinct keys `"0"`…`"127"`, all fresh until time 1000. -/
def cache128 : StreamCache :=
  (List.range 128).map fun i => (toString i, ⟨"https://s/u", none⟩, (1000 : Int))

/-! ## Queue manager lemmas -/

theorem qset_apply (m : QDict) (g : String) (v : Option (List TrackRequestItem))
    (g' : String) : qset m g v g' = if g' = g then v else m g' := rfl

theorem append_apply_self (m : QDict) (g : String) (t : TrackRequestItem) :
    (TrackQueueManager.append m g t) g = some ((m g).getD [] ++ [t]) := by
  unfold TrackQueueManager.append
  cases h : m g <;> simp [qset, h]

theorem appendAll_apply_self (g : String) (ts : List TrackRequestItem) :
    ∀ (m : QDict) (q : List TrackRequestItem), m g = some q →
      (appendAll m g ts) g = some (q ++ ts) := by
  induction ts with
  | nil => intro m q h; simpa [appendAll] using h
  | cons t ts ih =>
    intro m q h
    have step : (TrackQueueManager.append m g t) g = some (q ++ [t]) := by
      rw [append_apply_self, h]; rfl
    have : (appendAll (TrackQueueManager.append m g t) g ts) g
        = some ((q ++ [t]) ++ ts) := ih _ _ step
    simpa [appendAll, List.foldl_cons, List.append_assoc] using this

theorem getNextN_pops (g : String) :
    ∀ (ts : List TrackRequestItem) (m : QDict), m g = some ts →
      (getNextN m g ts.length).1 = ts.map some := by
  intro ts
  induction ts with
  | nil => intro m _; simp [getNextN]
  | cons t ts ih =>
    intro m h
    have hg : TrackQueueManager.get_next m g = (some t, qset m g (some ts)) := by
      simp [TrackQueueManager.get_next, h]
    have hset : (qset m g (some ts)) g = some ts := by simp [qset]
    simp [getNextN, hg, ih _ hset]

/-- C6: starting from a state with no queue for guild `g`, appending
`t1, …, tn` and then calling `get_next(g)` n times returns exactly
`t1, …, tn` in that order (FIFO). -/
theorem queue_fifo_order (m : QDict) (g : String) (ts : List TrackRequestItem)
    (h : m g = none) :
    (getNextN (appendAll m g ts) g ts.length).1 = ts.map some := by
  cases ts with
  | nil => simp [appendAll, getNextN]
  | cons t ts =>
    have step : (TrackQueueManager.append m g t) g = some [t] := by
      rw [append_apply_self, h]; rfl
    have happ : (appendAll m g (t :: ts)) g = some (t :: ts) := by
      have := appendAll_apply_self g ts (TrackQueueManager.append m g t) [t] step
      simpa [appendAll, List.foldl_cons] using this
    exact getNextN_pops g (t :: ts) _ happ

theorem queue_fifo_order_witness :
    (getNextN (appendAll emptyQDict "g" [mkTrack "a", mkTrack "b", mkTrack "c"]) "g"
      ([mkTrack "a", mkTrack "b", mkTrack "c"]).length).1
      = [mkTrack "a", mkTrack "b", mkTrack "c"].map some :=
  queue_fifo_order emptyQDict "g" [mkTrack "a", mkTrack "b", mkTrack "c"] rfl

/-- C7: `get_next` returns none and leaves the dict alone when no queue
exists; deletes the entry and returns none when the queue exists but is
empty; otherwise pops and returns the head.  Whenever it has just
returned none, the guild's queue length is 0, `is_empty` is true, and
no internal storage entry for the guild exists. -/
theorem get_next_self_cleaning (m : QDict) (g : String) :
    (m g = none → TrackQueueManager.get_next m g = (none, m)) ∧
    (m g = some [] → (TrackQueueManager.get_next m g).1 = none ∧
      ((TrackQueueManager.get_next m g).2) g = none) ∧
    (∀ t ts, m g = some (t :: ts) →
      TrackQueueManager.get_next m g = (some t, qset m g (some ts))) ∧
    ((TrackQueueManager.get_next m g).1 = none →
      TrackQueueManager.get_queue_length ((TrackQueueManager.get_next m g).2) g = 0 ∧
      TrackQueueManager.is_empty ((TrackQueueManager.get_next m g).2) g = true ∧
      ((TrackQueueManager.get_next m g).2) g = none) := by
  refine ⟨?_, ?_, ?_, ?_⟩
  · intro h; simp [TrackQueueManager.get_next, h]
  · intro h; simp [TrackQueueManager.get_next, h, qset]
  · intro t ts h; simp [TrackQueueManager.get_next, h]
  · intro h
    match hg : m g with
    | none =>
      simp [TrackQueueManager.get_next, hg, TrackQueueManager.get_queue_length,
        TrackQueueManager.is_empty]
    | some [] =>
      simp [TrackQueueManager.get_next, hg, TrackQueueManager.get_queue_length,
        TrackQueueManager.is_empty, qset]
    | some (t :: ts) =>
      rw [show TrackQueueManager.get_next m g = (some t, qset m g (some ts)) by
        simp [TrackQueueManager.get_next, hg]] at h
      simp at h

theorem get_next_self_cleaning_witness :
    TrackQueueManager.get_queue_length
      ((TrackQueueManager.get_next (qset emptyQDict "g" (some [])) "g").2) "g" = 0 ∧
    TrackQueueManager.is_empty
      ((TrackQueueManager.get_next (qset emptyQDict "g" (some [])) "g").2) "g" = true ∧
    ((TrackQueueManager.get_next (qset emptyQDict "g" (some [])) "g").2) "g" = none :=
  (get_next_self_cleaning (qset emptyQDict "g" (some [])) "g").2.2.2 rfl

/-- C9: per-guild isolation — any queue operation or volume write for a
guild `g'` leaves every observable of a distinct guild `g` unchanged:
the stored queue itself, its length, emptiness, `drop_queue`'s would-be
result, and the stored volume. -/
theorem guild_isolation (m : QDict) (vm : VDict) (g g' : String) (h : g ≠ g')
    (t : TrackRequestItem) (v : ℚ) :
    ((TrackQueueManager.append m g' t) g = m g) ∧
    (((TrackQueueManager.get_next m g').2) g = m g) ∧
    (((TrackQueueManager.drop_queue m g').2) g = m g) ∧
    (TrackQueueManager.get_queue_length (TrackQueueManager.append m g' t) g
      = TrackQueueManager.get_queue_length m g) ∧
    (TrackQueueManager.get_queue_length ((TrackQueueManager.get_next m g').2) g
      = TrackQueueManager.get_queue_length m g) ∧
    (TrackQueueManager.is_empty (TrackQueueManager.append m g' t) g
      = TrackQueueManager.is_empty m g) ∧
    (TrackQueueManager.is_empty ((TrackQueueManager.get_next m g').2) g
      = TrackQueueManager.is_empty m g) ∧
    ((TrackQueueManager.drop_queue (TrackQueueManager.append m g' t) g).1
      = (TrackQueueManager.drop_queue m g).1) ∧
    ((TrackQueueManager.drop_queue ((TrackQueueManager.get_next m g').2) g).1
      = (TrackQueueManager.drop_queue m g).1) ∧
    ((TrackQueueManager.drop_queue ((TrackQueueManager.drop_queue m g').2) g).1
      = (TrackQueueManager.drop_queue m g).1) ∧
    (VolumeManager.get_volume (VolumeManager.set_volume vm g' v) (some g)
      = VolumeManager.get_volume vm (some g)) := by
  have happ : (TrackQueueManager.append m g' t) g = m g := by
    unfold TrackQueueManager.append
    cases hg : m g' <;> simp [qset, h]
  have hnext : ((TrackQueueManager.get_next m g').2) g = m g := by
    unfold TrackQueueManager.get_next
    match hg : m g' with
    | none => rfl
    | some [] => simp [qset, h]
    | some (x :: xs) => simp [qset, h]
  have hdrop : ((TrackQueueManager.drop_queue m g').2) g = m g := by
    unfold TrackQueueManager.drop_queue
    cases hg : m g' <;> simp [qset, h]
  refine ⟨happ, hnext, hdrop, ?_, ?_, ?_, ?_, ?_, ?_, ?_, ?_⟩
  · simp [TrackQueueManager.get_queue_length, happ]
  · simp [TrackQueueManager.get_queue_length, hnext]
  · simp [TrackQueueManager.is_empty, happ]
  · simp [TrackQueueManager.is_empty, hnext]
  · unfold TrackQueueManager.drop_queue
    rw [happ]
    cases hm : m g <;> rfl
  · unfold TrackQueueManager.drop_queue
    rw [hnext]
    cases hm : m g <;> rfl
  · generalize hq : (TrackQueueManager.drop_queue m g').2 = m₂ at hdrop
    unfold TrackQueueManager.drop_queue
    rw [hdrop]
    cases hm : m g <;> rfl
  · simp [VolumeManager.get_volume, VolumeManager.set_volume, h]

theorem guild_isolation_witness :
    ((TrackQueueManager.append (qset emptyQDict "g" (some [mkTrack "a"])) "h"
      (mkTrack "b")) "g" = (qset emptyQDict "g" (some [mkTrack "a"])) "g") ∧
    (((TrackQueueManager.get_next (qset emptyQDict "g" (some [mkTrack "a"])) "h").2) "g"
      = (qset emptyQDict "g" (some [mkTrack "a"])) "g") := by
  have hge : ("g" : String) ≠ "h" := by decide
  have h := guild_isolation (qset emptyQDict "g" (some [mkTrack "a"])) emptyVDict
    "g" "h" hge (mkTrack "b") 1
  exact ⟨h.1, h.2.1⟩

/-- C10: popping the last remaining track leaves the now-empty queue
entry present in the map: `is_empty` is true and the length is 0, yet
`drop_queue` still returns true (and only then removes the entry) —
distinguishing an exhausted-but-present queue from an absent one. -/
theorem deferred_deletion_window (m : QDict) (g : String) (t : TrackRequestItem)
    (h : m g = some [t]) :
    (TrackQueueManager.get_next m g).1 = some t ∧
    ((TrackQueueManager.get_next m g).2) g = some [] ∧
    TrackQueueManager.is_empty ((TrackQueueManager.get_next m g).2) g = true ∧
    TrackQueueManager.get_queue_length ((TrackQueueManager.get_next m g).2) g = 0 ∧
    (TrackQueueManager.drop_queue ((TrackQueueManager.get_next m g).2) g).1 = true ∧
    ((TrackQueueManager.drop_queue ((TrackQueueManager.get_next m g).2) g).2) g = none := by
  have hg : TrackQueueManager.get_next m g = (some t, qset m g (some [])) := by
    simp [TrackQueueManager.get_next, h]
  have hset : (qset m g (some [])) g = some [] := by simp [qset]
  refine ⟨by simp [hg], by simp [hg, hset], ?_, ?_, ?_, ?_⟩
  · simp [hg, TrackQueueManager.is_empty, hset]
  · simp [hg, TrackQueueManager.get_queue_length, hset]
  · simp [hg, TrackQueueManager.drop_queue, hset]
  · simp [hg, TrackQueueManager.drop_queue, hset, qset]

theorem deferred_deletion_window_witness :
    (TrackQueueManager.get_next (qset emptyQDict "g" (some [mkTrack "a"])) "g").1
      = some (mkTrack "a") ∧
    ((TrackQueueManager.get_next (qset emptyQDict "g" (some [mkTrack "a"])) "g").2) "g"
      = some [] ∧
    TrackQueueManager.is_empty
      ((TrackQueueManager.get_next (qset emptyQDict "g" (some [mkTrack "a"])) "g").2) "g"
      = true ∧
    TrackQueueManager.get_queue_length
      ((TrackQueueManager.get_next (qset emptyQDict "g" (some [mkTrack "a"])) "g").2) "g"
      = 0 ∧
    (TrackQueueManager.drop_queue
      ((TrackQueueManager.get_next (qset emptyQDict "g" (some [mkTrack "a"])) "g").2) "g").1
      = true ∧
    ((TrackQueueManager.drop_queue
      ((TrackQueueManager.get_next (qset emptyQDict "g" (some [mkTrack "a"])) "g").2) "g").2) "g"
      = none :=
  deferred_deletion_window (qset emptyQDict "g" (some [mkTrack "a"])) "g" (mkTrack "a") rfl

/-- C8: `play_next` is a no-op while the transport reports playing or
paused; otherwise, when the queue manager yields no next track, it
drops the guild's queue and disconnects (teardown) exactly when the
voice channel has zero non-bot occupants, and makes no further change
(stays connected) otherwise.  The last conjunct ties `is_vc_empty` to
"zero non-bot occupants". -/
theorem advance_branch_behavior (vc : VoiceClient) (m : QDict) (g : String) :
    ((vc.is_playing || vc.is_paused) = true → play_next_step vc m g = (.noop, m)) ∧
    ((vc.is_playing || vc.is_paused) = false →
      (TrackQueueManager.get_next m g).1 = none →
      (is_vc_empty (some vc) = true →
        (play_next_step vc m g).1 = .teardown ∧ ((play_next_step vc m g).2) g = none) ∧
      (is_vc_empty (some vc) = false →
        play_next_step vc m g = (.idleWait, (TrackQueueManager.get_next m g).2))) ∧
    (∀ p q members, is_vc_empty (some ⟨p, q, some members⟩)
      = ((members.filter fun mem => !mem.bot).length == 0)) := by
  refine ⟨?_, ?_, ?_⟩
  · intro h; simp [play_next_step, h]
  · intro hp hn
    have hpost : ((TrackQueueManager.get_next m g).2) g = none := by
      unfold TrackQueueManager.get_next
      match hg : m g with
      | none => exact hg
      | some [] => simp [qset]
      | some (x :: xs) =>
        rw [show TrackQueueManager.get_next m g = (some x, qset m g (some xs)) by
          simp [TrackQueueManager.get_next, hg]] at hn
        simp at hn
    constructor
    · intro he
      have hstep : play_next_step vc m g
          = (.teardown, (TrackQueueManager.drop_queue ((TrackQueueManager.get_next m g).2) g).2) := by
        simp [play_next_step, hp, hn, he]
      constructor
      · simp [hstep]
      · rw [hstep]
        unfold TrackQueueManager.drop_queue
        rw [hpost]
        exact hpost

    · intro he
      simp [play_next_step, hp, hn, he]
  · intro p q members; rfl

theorem advance_branch_behavior_witness :
    (play_next_step ⟨false, false, some [⟨true⟩]⟩ emptyQDict "g").1 = .teardown ∧
    ((play_next_step ⟨false, false, some [⟨true⟩]⟩ emptyQDict "g").2) "g" = none :=
  (((advance_branch_behavior ⟨false, false, some [⟨true⟩]⟩ emptyQDict "g").2.1
    rfl rfl).1) rfl

/-! ## Stream cache lemmas -/

theorem cacheFind?_append_none (l₁ l₂ : StreamCache) (k : String)
    (h : ∀ x ∈ l₁, x.1 ≠ k) : cacheFind? (l₁ ++ l₂) k = cacheFind? l₂ k := by
  induction l₁ with
  | nil => rfl
  | cons x xs ih =>
    have hx : (x.1 == k) = false :=
      beq_eq_false_iff_ne.mpr (h x (List.mem_cons_self x xs))
    calc cacheFind? ((x :: xs) ++ l₂) k
        = cacheFind? (xs ++ l₂) k := by simp [cacheFind?, List.find?, hx]
      _ = cacheFind? l₂ k := ih fun y hy => h y (List.mem_cons_of_mem x hy)

theorem cacheErase_forall_ne (c : StreamCache) (k : String) :
    ∀ x ∈ cacheErase c k, x.1 ≠ k := by
  intro x hx
  have := List.of_mem_filter hx
  simpa [bne_iff_ne] using this

theorem cacheErase_of_not_mem (c : StreamCache) (k : String)
    (h : k ∉ cacheKeys c) : cacheErase c k = c := by
  apply List.filter_eq_self.mpr
  intro a ha
  have hne : a.1 ≠ k := fun heq => h (heq ▸ List.mem_map_of_mem _ ha)
  simpa [bne_iff_ne] using hne

/-- The entry just written by `cacheInsert` is always found afterwards
(the bound eviction can only remove an older entry as long as the bound
is positive). -/
theorem cacheFind?_cacheInsert (n : Nat) (hn : 0 < n) (c : StreamCache)
    (k : String) (s : StreamInfo) (e : Int) :
    cacheFind? (cacheInsert n c k (s, e)) k = some (s, e) := by
  unfold cacheInsert
  have hkeys : ∀ x ∈ cacheErase c k, x.1 ≠ k := cacheErase_forall_ne c k
  by_cases hlen : n < (cacheErase c k ++ [(k, s, e)]).length
  · simp only [hlen, if_true]
    cases hE : cacheErase c k with
    | nil =>
      rw [hE] at hlen
      simp at hlen
      omega
    | cons x xs =>
      have hxs : ∀ y ∈ xs, y.1 ≠ k := fun y hy =>
        hkeys y (hE ▸ List.mem_cons_of_mem x hy)
      have := cacheFind?_append_none xs [(k, s, e)] k hxs
      simpa [cacheFind?, List.find?] using this
  · simp only [hlen, if_false]
    have := cacheFind?_append_none (cacheErase c k) [(k, s, e)] k hkeys
    simpa [cacheFind?, List.find?] using this

/-- Insert of a fresh key into a cache at the 128-entry capacity: the
new entry goes to the back and the front entry — the least recently
*written* one — is evicted. -/
theorem cacheInsert_at_capacity (c : StreamCache) (knew : String) (s : StreamInfo)
    (e : Int) (hlen : c.length = YouTubeSource.cache_max_entries)
    (hnew : knew ∉ cacheKeys c) :
    cacheInsert YouTubeSource.cache_max_entries c knew (s, e)
      = c.tail ++ [(knew, s, e)] := by
  unfold cacheInsert
  rw [cacheErase_of_not_mem c knew hnew]
  have h1 : YouTubeSource.cache_max_entries < (c ++ [(knew, s, e)]).length := by
    simp [List.length_append, hlen]
  simp only [h1, if_true]
  cases c with
  | nil => exact absurd hlen (by decide)
  | cons x xs => rfl

/-- C1 (amended): a successful fresh read returns the cached stream and
leaves the cache — and with it the recency order — entirely unchanged
(reads do not refresh recency); an insert of a new key into a cache at
the 128-entry bound appends it at the back and evicts the front entry,
the least-recently-written one, whose key (under distinct keys) is then
no longer present — even if it was just successfully read. -/
theorem cache_eviction_write_recency (c : StreamCache) (now : Int)
    (k knew : String) (s : StreamInfo) (e : Int) :
    (∀ s' exp, cacheFind? c k = some (s', exp) → ¬(exp < now) →
      get_cached_stream now c k = (some s', c)) ∧
    (c.length = YouTubeSource.cache_max_entries → knew ∉ cacheKeys c →
      cacheInsert YouTubeSource.cache_max_entries c knew (s, e)
        = c.tail ++ [(knew, s, e)]) ∧
    (∀ hd tl, c = hd :: tl → (cacheKeys c).Nodup →
      c.length = YouTubeSource.cache_max_entries → knew ∉ cacheKeys c →
      cacheFind? (cacheInsert YouTubeSource.cache_max_entries c knew (s, e)) hd.1
        = none) := by
  refine ⟨?_, fun hlen hnew => cacheInsert_at_capacity c knew s e hlen hnew, ?_⟩
  · intro s' exp hfind hfresh
    unfold get_cached_stream
    rw [hfind]
    simp [hfresh]
  · intro hd tl hc hnodup hlen hnew
    rw [cacheInsert_at_capacity c knew s e hlen hnew]
    subst hc
    have hhead : hd.1 ∈ cacheKeys (hd :: tl) := by simp [cacheKeys]
    have hne : knew ≠ hd.1 := fun heq => hnew (heq ▸ hhead)
    have hkeys : (cacheKeys (hd :: tl)) = hd.1 :: cacheKeys tl := rfl
    have hnotail : hd.1 ∉ cacheKeys tl := by
      rw [hkeys] at hnodup
      exact (List.nodup_cons.mp hnodup).1
    have htl : ∀ x ∈ tl, x.1 ≠ hd.1 := by
      intro x hx heq
      exact hnotail (heq ▸ List.mem_map_of_mem _ hx)
    rw [show (hd :: tl).tail = tl from rfl,
      cacheFind?_append_none tl [(knew, s, e)] hd.1 htl]
    have : (knew == hd.1) = false := beq_eq_false_iff_ne.mpr hne
    simp [cacheFind?, List.find?, this]

set_option maxRecDepth 40000

theorem cache_eviction_write_recency_witness :
    (get_cached_stream 0 cache128 "0" = (some ⟨"https://s/u", none⟩, cache128)) ∧
    (cacheInsert YouTubeSource.cache_max_entries cache128 "new"
      (⟨"https://s/x", none⟩, 500) = cache128.tail ++ [("new", ⟨"https://s/x", none⟩, 500)]) ∧
    (cacheFind? (cacheInsert YouTubeSource.cache_max_entries cache128 "new"
      (⟨"https://s/x", none⟩, 500)) "0" = none) := by
  have h := cache_eviction_write_recency cache128 0 "0" "new" ⟨"https://s/x", none⟩ 500
  refine ⟨h.1 ⟨"https://s/u", none⟩ 1000 rfl (by decide),
    h.2.1 rfl (by decide),
    h.2.2 ("0", ⟨"https://s/u", none⟩, 1000) cache128.tail rfl (by decide) rfl (by decide)⟩

/-- C1 counterexample to the claim as stated: with the YouTube stream
cache filled to its 128-entry capacity, entry "0" (the least recently
written) is successfully read — fresh, and the read leaves the cache
unchanged — then one new entry is inserted, and entry "0" is the one
evicted: a successful read did *not* refresh recency, so the read entry
does not survive the insert. -/
theorem cache_lru_read_refresh_counterexample :
    cache128.length = YouTubeSource.cache_max_entries ∧
    (get_cached_stream 0 cache128 "0").1 = some ⟨"https://s/u", none⟩ ∧
    (get_cached_stream 0 cache128 "0").2 = cache128 ∧
    cacheFind? (YouTubeSource.remember_stream YouTubeSource.cache_ttl 0
      ((get_cached_stream 0 cache128 "0").2) "new" ⟨"https://s/x", none⟩) "0"
      = none := by
  refine ⟨rfl, rfl, rfl, by decide⟩

/-- C2 (amended): the entry `_remember_stream` writes is always present
afterwards; its expiry is `now + 900` for SoundCloud unconditionally —
the SoundCloud path never inspects the stream URL — while for YouTube
it is `min(now + ttl, max(now, expire - 60))` when the stream URL
carries a nonzero `expire` query parameter and `now + ttl` otherwise. -/
theorem cache_expiry_formula (ttl now : Int) (c : StreamCache) (k : String)
    (s : StreamInfo) :
    (cacheFind? (SoundCloudSource.remember_stream now c k s) k
      = some (s, now + SoundCloudSource.cache_ttl)) ∧
    (∀ e, YouTubeSource.extract_url_expiry s.stream_url = some e → e ≠ 0 →
      cacheFind? (YouTubeSource.remember_stream ttl now c k s) k
        = some (s, min (now + ttl) (max now (e - 60)))) ∧
    (YouTubeSource.extract_url_expiry s.stream_url = none →
      cacheFind? (YouTubeSource.remember_stream ttl now c k s) k
        = some (s, now + ttl)) := by
  refine ⟨?_, ?_, ?_⟩
  · unfold SoundCloudSource.remember_stream
    exact cacheFind?_cacheInsert _ (by decide) c k s _
  · intro e he hne
    have hbe : (e == 0) = false := beq_eq_false_iff_ne.mpr hne
    unfold YouTubeSource.remember_stream
    rw [he]
    simp only [hbe, Bool.false_eq_true, if_false]
    exact cacheFind?_cacheInsert _ (by decide) c k s _
  · intro hnone
    unfold YouTubeSource.remember_stream
    rw [hnone]
    exact cacheFind?_cacheInsert _ (by decide) c k s _

theorem cache_expiry_formula_witness :
    cacheFind? (YouTubeSource.remember_stream 900 0 [] "k"
      ⟨"https://h/p?expire=100", none⟩) "k"
      = some (⟨"https://h/p?expire=100", none⟩, min (0 + 900) (max 0 (100 - 60))) :=
  (cache_expiry_formula 900 0 [] "k" ⟨"https://h/p?expire=100", none⟩).2.1
    100 (by decide) (by decide)

/-- C2 counterexample to the claim as stated: a SoundCloud stream whose
URL carries `expire=100`, remembered at time 0, is stored with expiry
`0 + 900 = 900`, not `min(0 + 900, 100 - 60) = 40`; and a YouTube
stream with `expire=1030` remembered at time 1000 is stored with expiry
`1000` (the safety margin is clamped at `now`), not
`min(1000 + 900, 1030 - 60) = 970`. -/
theorem cache_expiry_claim_counterexample :
    (cacheFind? (SoundCloudSource.remember_stream 0 [] "k"
      ⟨"https://h/p?expire=100", none⟩) "k"
      = some (⟨"https://h/p?expire=100", none⟩, 900)) ∧
    (900 : Int) ≠ min (0 + 900) (100 - 60) ∧
    (cacheFind? (YouTubeSource.remember_stream 900 1000 [] "k"
      ⟨"https://h/p?expire=1030", none⟩) "k"
      = some (⟨"https://h/p?expire=1030", none⟩, 1000)) ∧
    (1000 : Int) ≠ min (1000 + 900) (1030 - 60) := by
  refine ⟨by decide, by decide, by decide, by decide⟩

/-! ## Search error mapping (C3) -/

/-- C3 (amended): YouTube's `search` maps a backend failure mentioning
403/forbidden (checked first) to AccessDenied and one mentioning
404/"not found"/"unavailable" to NotFound, with distinct messages, else
a generic error carrying the backend text; SoundCloud's `search` maps
only 404/"not found" to NotFound and everything else — including
403/forbidden and "unavailable" — to its generic error carrying the
backend text. -/
theorem search_error_mapping (t : String) :
    ((strContains t "403" || strContains (strLower t) "forbidden") = true →
      YouTubeSource.search_download_error t
        = .accessDenied YouTubeSource.access_denied_message) ∧
    ((strContains t "403" || strContains (strLower t) "forbidden") = false →
      (strContains (strLower t) "404" || strContains (strLower t) "not found"
        || strContains (strLower t) "unavailable") = true →
      YouTubeSource.search_download_error t
        = .notFound YouTubeSource.not_found_message) ∧
    ((strContains t "403" || strContains (strLower t) "forbidden") = false →
      (strContains (strLower t) "404" || strContains (strLower t) "not found"
        || strContains (strLower t) "unavailable") = false →
      YouTubeSource.search_download_error t
        = .providerError ("❌ Error accessing YouTube: " ++ t)) ∧
    YouTubeSource.access_denied_message ≠ YouTubeSource.not_found_message ∧
    ((strContains t "404" || strContains (strLower t) "not found") = true →
      SoundCloudSource.search_download_error t
        = .notFound SoundCloudSource.not_found_message) ∧
    ((strContains t "404" || strContains (strLower t) "not found") = false →
      SoundCloudSource.search_download_error t
        = .providerError ("❌ Error accessing SoundCloud: " ++ t)) := by
  refine ⟨?_, ?_, ?_, by decide, ?_, ?_⟩
  · intro h1; simp [YouTubeSource.search_download_error, h1]
  · intro h1 h2; simp [YouTubeSource.search_download_error, h1, h2]
  · intro h1 h2; simp [YouTubeSource.search_download_error, h1, h2]
  · intro h1; simp [SoundCloudSource.search_download_error, h1]
  · intro h1; simp [SoundCloudSource.search_download_error, h1]

theorem search_error_mapping_witness :
    YouTubeSource.search_download_error "ERROR: HTTP Error 403: Forbidden"
      = .accessDenied YouTubeSource.access_denied_message ∧
    SoundCloudSource.search_download_error "ERROR: HTTP Error 404: Not Found"
      = .notFound SoundCloudSource.not_found_message :=
  ⟨(search_error_mapping "ERROR: HTTP Error 403: Forbidden").1 (by decide),
   (search_error_mapping "ERROR: HTTP Error 404: Not Found").2.2.2.2.1 (by decide)⟩

/-- C3 counterexample to the claim as stated: a SoundCloud backend
failure mentioning 403/Forbidden is *not* mapped to AccessDenied (it
falls to the generic error), and one mentioning "unavailable" is *not*
mapped to NotFound — SoundCloud's `search` has no 403 branch and no
"unavailable" token. -/
theorem search_error_mapping_counterexample :
    (SoundCloudSource.search_download_error
      "ERROR: HTTP Error 403: Forbidden").isAccessDenied = false ∧
    SoundCloudSource.search_download_error "ERROR: HTTP Error 403: Forbidden"
      = .providerError "❌ Error accessing SoundCloud: ERROR: HTTP Error 403: Forbidden" ∧
    (SoundCloudSource.search_download_error
      "ERROR: This track is unavailable").isNotFound = false := by
  refine ⟨by decide, by decide, by decide⟩

/-! ## Format selection (C4) -/

theorem insertDescBy_ne_nil {α : Type} (key : α → Int) (x : α) (l : List α) :
    insertDescBy key x l ≠ [] := by
  cases l with
  | nil => simp [insertDescBy]
  | cons y ys =>
    unfold insertDescBy
    split <;> simp

theorem sortDescBy_ne_nil {α : Type} (key : α → Int) (l : List α) (h : l ≠ []) :
    sortDescBy key l ≠ [] := by
  cases l with
  | nil => exact absurd rfl h
  | cons x xs => exact insertDescBy_ne_nil key x (sortDescBy key xs)

theorem headD_mem {α : Type} [Inhabited α] (l : List α) (h : l ≠ []) :
    l.headD default ∈ l := by
  cases l with
  | nil => exact absurd rfl h
  | cons x xs => simp

/-- The head of the stable descending sort is an element of maximal
key. -/
theorem sortDescBy_head_max {α : Type} [Inhabited α] (key : α → Int) (l : List α)
    (h : l ≠ []) :
    (sortDescBy key l).headD default ∈ l ∧
      ∀ y ∈ l, key y ≤ key ((sortDescBy key l).headD default) := by
  induction l with
  | nil => exact absurd rfl h
  | cons x xs ih =>
    by_cases hxs : xs = []
    · subst hxs
      simp [sortDescBy, insertDescBy]
    · obtain ⟨hmem, hmax⟩ := ih hxs
      cases hs : sortDescBy key xs with
      | nil => exact absurd hs (sortDescBy_ne_nil key xs hxs)
      | cons a rest =>
        rw [hs] at hmem hmax
        simp only [List.headD_cons] at hmem hmax
        have hstep : sortDescBy key (x :: xs) = insertDescBy key x (a :: rest) := by
          simp [sortDescBy, hs]
        by_cases hcmp : key a ≤ key x
        · have : sortDescBy key (x :: xs) = x :: a :: rest := by
            rw [hstep]; simp [insertDescBy, hcmp]
          rw [this]
          simp only [List.headD_cons]
          refine ⟨List.mem_cons_self x xs, ?_⟩
          intro y hy
          rcases List.mem_cons.mp hy with hy | hy
          · exact hy ▸ le_refl _
          · exact le_trans (hmax y hy) hcmp
        · have : sortDescBy key (x :: xs) = a :: insertDescBy key x rest := by
            rw [hstep]; simp [insertDescBy, hcmp]
          rw [this]
          simp only [List.headD_cons]
          refine ⟨List.mem_cons_of_mem x hmem, ?_⟩
          intro y hy
          rcases List.mem_cons.mp hy with hy | hy
          · exact hy ▸ le_of_lt (lt_of_not_ge hcmp)
          · exact hmax y hy

/-- C4 (amended): YouTube's extraction selects a maximum-bitrate format
among *all* audio-capable formats — streaming-playlist (HLS) formats
are not excluded — falling back directly to the top-level `url` field;
SoundCloud's extraction is the tiered selection: a maximum-bitrate
non-HLS audio format when one exists, else the *first* audio-capable
format in list order, else the top-level `url` when it starts with
"http", else failure. -/
theorem stream_format_selection (data : ExtractData) :
    (YouTubeSource.audio_formats data ≠ [] →
      ∃ f ∈ YouTubeSource.audio_formats data,
        YouTubeSource.extract_stream_url data = .ok (f.url.getD "") ∧
        ∀ g ∈ YouTubeSource.audio_formats data, abrKey g ≤ abrKey f) ∧
    (YouTubeSource.audio_formats data = [] → optTruthy data.url = true →
      YouTubeSource.extract_stream_url data = .ok (data.url.getD "")) ∧
    (YouTubeSource.audio_formats data = [] → optTruthy data.url = false →
      YouTubeSource.extract_stream_url data
        = .error "No valid audio stream found for YouTube track") ∧
    (SoundCloudSource.preferred_formats data ≠ [] →
      ∃ f ∈ SoundCloudSource.preferred_formats data,
        strEndsWith (f.url.getD "") ".m3u8" = false ∧
        SoundCloudSource.extract_stream_url data = .ok (f.url.getD "") ∧
        ∀ g ∈ SoundCloudSource.preferred_formats data, abrKey g ≤ abrKey f) ∧
    (SoundCloudSource.preferred_formats data = [] →
      ∀ f fs, SoundCloudSource.fallback_formats data = f :: fs →
        SoundCloudSource.extract_stream_url data = .ok (f.url.getD "")) ∧
    (SoundCloudSource.preferred_formats data = [] →
      SoundCloudSource.fallback_formats data = [] →
      (optTruthy data.url && strStartsWith (data.url.getD "") "http") = true →
      SoundCloudSource.extract_stream_url data = .ok (data.url.getD "")) ∧
    (SoundCloudSource.preferred_formats data = [] →
      SoundCloudSource.fallback_formats data = [] →
      (optTruthy data.url && strStartsWith (data.url.getD "") "http") = false →
      SoundCloudSource.extract_stream_url data
        = .error "No valid audio stream found") := by
  refine ⟨?_, ?_, ?_, ?_, ?_, ?_, ?_⟩
  · intro h
    obtain ⟨hmem, hmax⟩ := sortDescBy_head_max abrKey (YouTubeSource.audio_formats data) h
    refine ⟨_, hmem, ?_, hmax⟩
    have hfalse : (YouTubeSource.audio_formats data).isEmpty = false := by
      cases hA : YouTubeSource.audio_formats data with
      | nil => exact absurd hA h
      | cons a as => rfl
    simp [YouTubeSource.extract_stream_url, hfalse]
  · intro h hu
    simp [YouTubeSource.extract_stream_url, h, hu]
  · intro h hu
    simp [YouTubeSource.extract_stream_url, h, hu]
  · intro h
    obtain ⟨hmem, hmax⟩ :=
      sortDescBy_head_max abrKey (SoundCloudSource.preferred_formats data) h
    have hpred := List.of_mem_filter hmem
    have hm3u8 : strEndsWith
        (((sortDescBy abrKey (SoundCloudSource.preferred_formats data)).headD
          default).url.getD "") ".m3u8" = false := by
      revert hpred
      simp only [Bool.and_eq_true, Bool.not_eq_true']
      tauto
    refine ⟨_, hmem, hm3u8, ?_, hmax⟩
    have hfalse : (SoundCloudSource.preferred_formats data).isEmpty = false := by
      cases hA : SoundCloudSource.preferred_formats data with
      | nil => exact absurd hA h
      | cons a as => rfl
    simp [SoundCloudSource.extract_stream_url, hfalse]
  · intro hpref f fs hfall
    have hfalse : (SoundCloudSource.fallback_formats data).isEmpty = false := by
      rw [hfall]; rfl
    simp [SoundCloudSource.extract_stream_url, hpref, hfalse, hfall]
  · intro hpref hfall hu
    simp [SoundCloudSource.extract_stream_url, hpref, hfall, hu]
  · intro hpref hfall hu
    simp [SoundCloudSource.extract_stream_url, hpref, hfall, hu]

theorem stream_format_selection_witness :
    (∃ f ∈ YouTubeSource.audio_formats
      { requested_formats := none,
        formats := some [⟨some "https://a/x.m3u8", some "mp4a.40.2", some 100⟩,
                         ⟨some "https://a/y.mp3", some "mp4a.40.2", some 50⟩],
        url := none },
      YouTubeSource.extract_stream_url
        { requested_formats := none,
          formats := some [⟨some "https://a/x.m3u8", some "mp4a.40.2", some 100⟩,
                           ⟨some "https://a/y.mp3", some "mp4a.40.2", some 50⟩],
          url := none } = .ok (f.url.getD "") ∧
      ∀ g ∈ YouTubeSource.audio_formats
        { requested_formats := none,
          formats := some [⟨some "https://a/x.m3u8", some "mp4a.40.2", some 100⟩,
                           ⟨some "https://a/y.mp3", some "mp4a.40.2", some 50⟩],
          url := none }, abrKey g ≤ abrKey f) ∧
    (∃ f ∈ SoundCloudSource.preferred_formats
      { requested_formats := none,
        formats := some [⟨some "https://a/x.m3u8", some "mp4a.40.2", some 100⟩,
                         ⟨some "https://a/y.mp3", some "mp4a.40.2", some 50⟩],
        url := none },
      strEndsWith (f.url.getD "") ".m3u8" = false ∧
      SoundCloudSource.extract_stream_url
        { requested_formats := none,
          formats := some [⟨some "https://a/x.m3u8", some "mp4a.40.2", some 100⟩,
                           ⟨some "https://a/y.mp3", some "mp4a.40.2", some 50⟩],
          url := none } = .ok (f.url.getD "") ∧
      ∀ g ∈ SoundCloudSource.preferred_formats
        { requested_formats := none,
          formats := some [⟨some "https://a/x.m3u8", some "mp4a.40.2", some 100⟩,
                           ⟨some "https://a/y.mp3", some "mp4a.40.2", some 50⟩],
          url := none }, abrKey g ≤ abrKey f) ∧
    SoundCloudSource.extract_stream_url
      { requested_formats := none,
        formats := some [⟨some "https://b/x.m3u8", some "mp4a.40.2", some 100⟩,
                         ⟨some "https://b/z.m3u8", some "mp4a.40.2", some 50⟩],
        url := none } = .ok "https://b/x.m3u8" :=
  ⟨(stream_format_selection _).1 (by decide),
   (stream_format_selection _).2.2.2.1 (by decide),
   (stream_format_selection _).2.2.2.2.1 (by decide)
     ⟨some "https://b/x.m3u8", some "mp4a.40.2", some 100⟩
     [⟨some "https://b/z.m3u8", some "mp4a.40.2", some 50⟩] (by decide)⟩

/-- C4 counterexample to the claim as stated: on a format list holding
an HLS audio format (url ending ".m3u8", bitrate 100) and a non-HLS
audio format (bitrate 50), YouTube's extraction returns the HLS url —
it does not prefer non-streaming-playlist formats — while SoundCloud's
on the same input returns the non-HLS url. -/
theorem stream_format_selection_counterexample :
    YouTubeSource.extract_stream_url
      { requested_formats := none,
        formats := some [⟨some "https://a/x.m3u8", some "mp4a.40.2", some 100⟩,
                         ⟨some "https://a/y.mp3", some "mp4a.40.2", some 50⟩],
        url := none } = .ok "https://a/x.m3u8" ∧
    strEndsWith "https://a/x.m3u8" ".m3u8" = true ∧
    SoundCloudSource.extract_stream_url
      { requested_formats := none,
        formats := some [⟨some "https://a/x.m3u8", some "mp4a.40.2", some 100⟩,
                         ⟨some "https://a/y.mp3", some "mp4a.40.2", some 50⟩],
        url := none } = .ok "https://a/y.mp3" := by
  refine ⟨rfl, rfl, rfl⟩

end Symphony
